import Mathlib

/-!
Verification of the distributed point-scheduling and per-point correlation
orchestration engine of DICe (`src/core/DICe_Schema.cpp`).  The file gives
shallow Lean embeddings of the routines the specification's claims are about:
the dependency partitioner `Schema::create_obstruction_dist_map`, the seed
partitioner `Schema::create_seed_dist_map`, the parameter-whitelist validation
of `Schema::set_params`, and the per-point pipeline
`Schema::generic_correlation_routine` with its helpers `record_step` and
`record_failed_step`.  Theorems about these definitions settle the claims.
-/

namespace DICe

/-! Part 1: the dependency partitioner, `Schema::create_obstruction_dist_map`
(lines 609-753).  Scalars are subset ids (`int_t`, always in `[0,N)` here), a
processor count `P` (`num_procs`) and the configured `obstructing_subset_ids_`
map.  `std::map` iteration enumerates entries in ascending key order, so the
map is embedded as the list of its entries in that order. -/

/-- One entry of the `obstructing_subset_ids_` map: a subset id together with
the list of ids of the subsets that obstruct (block) it. -/
abbrev Entry := ℕ × List ℕ

/-- The `obstructing_subset_ids_` map, as the list of its entries. -/
abbrev OMap := List Entry

/-- Ids mentioned by one entry: its key (`map_it->first`) and every blocker in
its list (`map_it->second`), exactly what lines 636-642 insert into
`dependencies`. -/
def entryIds (e : Entry) : Finset ℕ := insert e.1 e.2.toFinset

/-- All ids mentioned by a list of entries. -/
def idsOf (l : OMap) : Finset ℕ := l.foldr (fun e s => entryIds e ∪ s) ∅

/-- Insert an id into an ascending duplicate-free id list.  This is the shape
`std::set<int_t>` keeps its contents in: the list is the set's ascending
enumeration, its head the element `begin()` points at. -/
def insSorted (x : ℕ) : List ℕ → List ℕ
  | [] => [x]
  | y :: ys =>
    if x < y then x :: y :: ys
    else if x = y then y :: ys
    else y :: insSorted x ys

/-- Insert every id of a list into the sorted set. -/
def insAll (xs : List ℕ) (s : List ℕ) : List ℕ :=
  xs.foldl (fun acc x => insSorted x acc) s

/-- One full traversal of the obstruction map at a fixed dependency iterator:
the inner `search_it` loop of lines 646-667.  `d` is the value `*dep_it`
currently points at, `deps` the `dependencies` set as its ascending
enumeration, `asg` the `assigned_to_a_group` set.  An entry whose key is
already assigned is skipped (line 648); a match — the current `*dep_it` equals
the entry's key or one of its blockers (lines 650-654) — inserts the entry's
key and blockers into `dependencies` (lines 656-661), resets `dep_it` to
`dependencies.begin()` (line 663), so the rest of this same traversal compares
against the new minimum, and marks the key assigned (line 665).  Returns the
iterator value reached together with the updated sets. -/
def searchPass : OMap → ℕ → List ℕ → Finset ℕ → ℕ × List ℕ × Finset ℕ
  | [], d, deps, asg => (d, deps, asg)
  | (k, bs) :: rest, d, deps, asg =>
    if k ∈ asg then searchPass rest d deps asg
    else if d = k ∨ d ∈ bs then
      searchPass rest ((insAll (k :: bs) deps).headD 0) (insAll (k :: bs) deps)
        (insert k asg)
    else searchPass rest d deps asg

/-- The dependency loop of lines 644-668,
`for(;dep_it!=dependencies.end();++dep_it) { <map traversal> }`: traverse the
whole map at the current iterator value, then `++dep_it` — advance to the
least element of the (possibly grown) set strictly greater than the value
reached, stopping at `end()` when there is none.  Note what the reset
semantics makes of a newly inserted minimum id: `dep_it =
dependencies.begin()` leaves the iterator on the new minimum, and the loop's
`++dep_it` immediately advances past it, so that id itself is never scanned
after the reset.  `fuel` only bounds the iteration count; `scanFuel` below is
never reached. -/
def depLoop : ℕ → OMap → ℕ → List ℕ → Finset ℕ → List ℕ × Finset ℕ
  | 0, _, _, deps, asg => (deps, asg)
  | fuel+1, m, d, deps, asg =>
    match searchPass m d deps asg with
    | (d', deps', asg') =>
      match (deps'.filter fun x => decide (d' < x)).head? with
      | none => (deps', asg')
      | some d'' => depLoop fuel m d'' deps' asg'

/-- An iteration bound the dependency loop never exhausts: a traversal with a
match marks a previously unassigned key assigned (possible at most once per
map entry), and between matches the iterator strictly advances through a set
holding at most every id the map mentions, so the loop runs at most
`(m.length + 1) * (m.length + Σ blocker-list lengths + 1)` iterations.  With
this fuel `depLoop` always exits through its `none` branch and computes
exactly the scan the C++ runs. -/
def scanFuel (m : OMap) : ℕ :=
  (m.length + 1) * (m.length + (m.map fun e => e.2.length).sum + 2) + 1

/-- The dependency gathering for one seed entry (lines 635-668):
`dependencies` starts as the entry's key and blockers (lines 636-642), the
iterator at `begin()`, and the loop of lines 644-668 runs to completion. -/
def depClosure (m : OMap) (e : Entry) (asg : Finset ℕ) : List ℕ × Finset ℕ :=
  depLoop (scanFuel m) m ((insAll (e.1 :: e.2) []).headD 0)
    (insAll (e.1 :: e.2) []) asg

/-- The outer loop over the map entries (lines 627-670): every entry whose key
is not yet assigned to a group seeds a group, pushed in scan order
(`obstruction_groups.push_back`, line 669).  Because the dependency loop never
scans a newly inserted minimum id (see `depLoop`), an entry touching only that
id can stay unabsorbed and later seed its own group around ids an earlier
group already holds, so the produced groups need not be disjoint. -/
def groupScanAux (m : OMap) : OMap → Finset ℕ → List (List ℕ)
  | [], _ => []
  | e :: rest, asg =>
    if e.1 ∈ asg then groupScanAux m rest asg
    else
      match depClosure m e asg with
      | (g, asg') => g :: groupScanAux m rest asg'

/-- The obstruction groups of the configured map (`obstruction_groups`), each
as the set of its ids. -/
def obstructionGroups (m : OMap) : List (Finset ℕ) :=
  (groupScanAux m m ∅).map List.toFinset

/-- The `eligible_ids` left over once all groups are formed: every id in
`[0,N)` not mentioned by the obstruction map.  The C++ starts from all ids and
erases each key and blocker as it reaches a group (lines 621-623, 637, 641,
657, 660); `std::set` iteration is ascending. -/
def eligibleIds (N : ℕ) (m : OMap) : List ℕ :=
  (List.range N).filter fun x => !decide (x ∈ idsOf m)

/-- Round-robin distribution of whole obstruction groups (lines 686-699):
group `i` goes to processor `i % P`.  `procGroupIdsAux P p gs i` collects into
processor `p`'s set the groups of `gs` whose global index, starting at `i`, is
congruent to `p` modulo `P`; insertion into the `std::set`
`local_subset_ids[p_id]` is set union. -/
def procGroupIdsAux (P p : ℕ) : List (Finset ℕ) → ℕ → Finset ℕ
  | [], _ => ∅
  | g :: gs, i => (if i % P = p then g else ∅) ∪ procGroupIdsAux P p gs (i+1)

/-- The set of ids processor `p` receives from the round-robin group
distribution. -/
def procGroupIds (P : ℕ) (groups : List (Finset ℕ)) (p : ℕ) : Finset ℕ :=
  procGroupIdsAux P p groups 0

/-- The per-processor id sets `local_subset_ids` after group distribution. -/
def initialSets (P : ℕ) (m : OMap) : List (Finset ℕ) :=
  (List.range P).map (procGroupIds P (obstructionGroups m))

/-- The scan of lines 702-709 choosing `proc_with_fewest_subsets`: walk the
processors in order, keeping the latest one whose current subset count is `≤`
the best so far, starting from `lowest_num_subsets = data_num_points_`. -/
def procWithFewestAux : List ℕ → ℕ → ℕ × ℕ → ℕ × ℕ
  | [], _, best => best
  | n :: ns, i, best => procWithFewestAux ns (i+1) (if n ≤ best.2 then (i, n) else best)

/-- The processor with the fewest subsets (ties resolved in favour of the
highest processor id, because the C++ comparison is `<=`). -/
def procWithFewestSubsets (N : ℕ) (sizes : List ℕ) : ℕ :=
  (procWithFewestAux sizes 0 (0, N)).1

/-- Insert one eligible id into the set of the least-loaded processor
(line 710). -/
def insertEligible (N : ℕ) (sets : List (Finset ℕ)) (x : ℕ) : List (Finset ℕ) :=
  sets.set (procWithFewestSubsets N (sets.map Finset.card))
    (insert x (sets.getD (procWithFewestSubsets N (sets.map Finset.card)) ∅))

/-- Greedy distribution of the eligible (ungrouped) ids, in ascending order
(lines 700-711). -/
def assignEligible (N : ℕ) (sets : List (Finset ℕ)) (elig : List ℕ) :
    List (Finset ℕ) :=
  elig.foldl (insertEligible N) sets

/-- The per-processor id sets produced by `create_obstruction_dist_map` once
both whole groups and eligible ids have been distributed. -/
def localSets (N P : ℕ) (m : OMap) : List (Finset ℕ) :=
  assignEligible N (initialSets P m) (eligibleIds N m)

/-- Does subset `x` have a nonempty blocker list?  This is the
`obstructing_subset_ids_` lookup driving the two ordering passes of lines
713-734. -/
def hasBlockers (m : OMap) (x : ℕ) : Bool :=
  match m.find? (fun e => e.1 == x) with
  | none => false
  | some e => !e.2.isEmpty

/-- Ascending enumeration of a set of subset ids, as `std::set<int_t>`
iteration produces it; every id the partitioner handles lies in `[0,N)`, so
filtering `0,...,N-1` enumerates exactly the set, in increasing order. -/
def ascendingIds (N : ℕ) (s : Finset ℕ) : List ℕ :=
  (List.range N).filter fun x => decide (x ∈ s)

/-- The ordered local id list of processor `p` (the `local_ids` vector from
which `dist_map_` is built, lines 712-745): ids with no blockers first, then
ids with blockers, each pass scanning the processor's `std::set` in ascending
order. -/
def create_obstruction_dist_map (N P : ℕ) (m : OMap) (p : ℕ) : List ℕ :=
  (ascendingIds N ((localSets N P m).getD p ∅)).filter (fun x => !hasBlockers m x) ++
    (ascendingIds N ((localSets N P m).getD p ∅)).filter (fun x => hasBlockers m x)

/-! Part 2: the seed partitioner, `Schema::create_seed_dist_map`
(lines 755-836).  The neighbor-id array (`int_t` valued, `-1` marking a seed)
is embedded as a `List ℤ` of length `data_num_points_`. -/

/-- Neighbor id of subset `i` (`(*neighbor_ids)[i]`); `-1` marks a seed.  The
array always has length `data_num_points_`, so the default is never taken on
the inputs the code runs on. -/
def nbAt (nb : List ℤ) (i : ℕ) : ℤ := nb.getD i 0

/-- The scan of lines 790-797: visit ids from `data_num_points_-1` down to
`0`, push each onto the current grouping (`this_group_gids.push_back(i)`), and
close the grouping whenever the visited id is a seed
(`(*neighbor_ids)[i]==-1`).  The state is the list of closed groupings and the
currently open one; the trailing open grouping is never closed. -/
def seedScan (nb : List ℤ) :
    List ℕ → List ℕ → List (List ℕ) → List (List ℕ) × List ℕ
  | [], cur, closed => (closed, cur)
  | i :: rest, cur, closed =>
    if nbAt nb i = -1 then seedScan nb rest [] (closed ++ [cur ++ [i]])
    else seedScan nb rest (cur ++ [i]) closed

/-- The seed groupings: every closed grouping, reversed so that the seed comes
first (`std::reverse` at line 807, applied to each grouping as it is handed to
its processor).  The still-open trailing grouping is discarded. -/
def seedGroupings (nb : List ℤ) : List (List ℕ) :=
  ((seedScan nb (List.range nb.length).reverse [] []).1).map List.reverse

/-- The outcome of `create_seed_dist_map`, reduced to which map is built:
either `seed_dist_map_` is set to the dependency partitioner's `dist_map_`
itself (pointer assignment `seed_dist_map_ = dist_map_`), or it is built from
the seed-chain groupings. -/
inductive Seed_Map_Result
  | distMap
  | grouped (chains : List (List ℕ))
deriving DecidableEq

/-- `Schema::create_seed_dist_map` (lines 755-836): with no neighbor-id array
the seed map is the distributed map (line 834); when an obstruction map is
configured and non-empty the seed map is likewise set to `dist_map_` with a
warning, and no chain grouping happens (lines 769-783); otherwise the
seed-chain groupings are built. -/
def create_seed_dist_map (nb : Option (List ℤ)) (om : Option OMap) :
    Seed_Map_Result :=
  match nb with
  | none => .distMap
  | some nbs =>
    match om with
    | some m => if 0 < m.length then .distMap else .grouped (seedGroupings nbs)
    | none => .grouped (seedGroupings nbs)

/-! Part 3: the parameter-whitelist validation of `Schema::set_params`
(lines 278-311).  The whitelists `valid_correlation_params` and
`valid_post_processor_params` live in `DICe_ParameterUtilities`, outside this
translation unit, so they are parameters of the embedding; the checking logic
itself is the one of `set_params`. -/

/-- The `allParamsValid` loop of lines 281-301: a supplied parameter name is
valid when it occurs among the valid correlation parameter names or the valid
post-processor parameter names. -/
def allParamsValid (validCorr validPP params : List String) : Bool :=
  params.all fun name => validCorr.contains name || validPP.contains name

/-- The fatal check `TEUCHOS_TEST_FOR_EXCEPTION(!allParamsValid, ...)` at line
311: `set_params` throws `std::invalid_argument` (stopping the run before any
frame executes) exactly when some supplied name is on neither whitelist. -/
def set_params (validCorr validPP params : List String) : Except Unit Unit :=
  if allParamsValid validCorr validPP params then .ok () else .error ()

/-! Part 4: the per-point pipeline, `Schema::generic_correlation_routine`
(lines 1059-1352) with `record_step` and `record_failed_step`.  Field scalars
(`scalar_t`) are embedded as rationals.  The external collaborators (motion
detector, path initializer, `Objective`) are oracles: each call either returns
a value or stands for a thrown `std::logic_error`, modelled as
`Except.error ()`. -/

/-- The status flags recorded by the pipeline (the subset of DICe's
`Status_Flag` enum that `DICe_Schema.cpp` stores into `STATUS_FLAG`). -/
inductive Status_Flag
  | INITIALIZE_SUCCESSFUL
  | INITIALIZE_FAILED
  | INITIALIZE_FAILED_BY_EXCEPTION
  | CORRELATION_SUCCESSFUL
  | CORRELATION_FAILED
  | CORRELATION_FAILED_BY_EXCEPTION
  | FRAME_SKIPPED
  | FRAME_SKIPPED_DUE_TO_NO_MOTION
  | FRAME_FAILED_DUE_TO_HIGH_GAMMA
  | FRAME_FAILED_DUE_TO_HIGH_PATH_DISTANCE
deriving DecidableEq

/-- The failure statuses the claims group together: initialization failure and
its exception variant, optimizer failure and its exception variant, and the
two quality gates. -/
def isFailureStatus : Status_Flag → Bool
  | .INITIALIZE_FAILED => true
  | .INITIALIZE_FAILED_BY_EXCEPTION => true
  | .CORRELATION_FAILED => true
  | .CORRELATION_FAILED_BY_EXCEPTION => true
  | .FRAME_FAILED_DUE_TO_HIGH_GAMMA => true
  | .FRAME_FAILED_DUE_TO_HIGH_PATH_DISTANCE => true
  | _ => false

/-- The initialization methods distinguished by the routine; every value other
than the first three takes the `else` branch of lines 1134-1136, which
`USE_NEIGHBOR_VALUES` stands for here. -/
inductive Initialization_Method
  | USE_FIELD_VALUES
  | USE_NEIGHBOR_VALUES
  | USE_NEIGHBOR_VALUES_FIRST_STEP_ONLY
  | USE_PHASE_CORRELATION
deriving DecidableEq

/-- The optimization methods of lines 1176-1243. -/
inductive Optimization_Method
  | SIMPLEX
  | GRADIENT_BASED
  | SIMPLEX_THEN_GRADIENT_BASED
  | GRADIENT_BASED_THEN_SIMPLEX
deriving DecidableEq

/-- The six-component deformation vector (`DICE_DEFORMATION_SIZE`), indexed in
the C++ by `DISPLACEMENT_X`, `DISPLACEMENT_Y`, `ROTATION_Z`,
`NORMAL_STRAIN_X`, `NORMAL_STRAIN_Y` and `SHEAR_STRAIN_XY`. -/
structure Deformation where
  ux : ℚ
  uy : ℚ
  tz : ℚ
  ex : ℚ
  ey : ℚ
  gxy : ℚ
deriving DecidableEq

/-- The deformation vector as first allocated (line 1107): all components
`0.0`. -/
def zeroDeformation : Deformation := ⟨0, 0, 0, 0, 0, 0⟩

/-- The per-point fields of one subset that the routine reads and writes
through `local_field_value`. -/
structure Fields where
  u : ℚ
  v : ℚ
  theta : ℚ
  exx : ℚ
  eyy : ℚ
  gxy : ℚ
  sigma : ℚ
  matchField : ℚ
  gamma : ℚ
  statusFlag : Status_Flag
  iterations : ℤ
deriving DecidableEq

/-- The schema configuration the routine reads.  Disabled thresholds hold the
sentinel `-1`. -/
structure Config where
  initialization_method : Initialization_Method
  optimization_method : Optimization_Method
  image_frame : ℕ
  initial_gamma_threshold : ℚ := -1
  final_gamma_threshold : ℚ := -1
  path_distance_threshold : ℚ := -1
  phase_cor_u_x : ℚ := 0
  phase_cor_u_y : ℚ := 0

/-- The behaviour of one subset's external collaborators during one pass: the
motion detector, the path initializer and the `Objective` calls, each
returning either a value or `Except.error ()` for a thrown
`std::logic_error`.  `initialize_from_previous_frame` and
`initialize_from_neighbor` read only the field store, which the pass does not
modify before their last use, so each is a single value; their status result
is `INITIALIZE_SUCCESSFUL` or `INITIALIZE_FAILED`, encoded as a `Bool`.  The
optimizer calls mutate the deformation vector and iteration count by
reference, so they are functions of the vector passed in, returning the new
status, vector and count. -/
structure Objective_Behavior where
  motion_window : Option Bool := none
  has_path_file : Bool := false
  skip_solve_flag : Option Bool := none
  path_init_global : Except Unit (ℚ × Deformation) := .error ()
  path_init_local : ℚ → ℚ → ℚ → Except Unit (ℚ × Deformation) := fun _ _ _ => .error ()
  init_prev : Except Unit (Bool × Deformation) := .error ()
  init_neighbor : Except Unit (Bool × Deformation) := .error ()
  update_fast : Deformation → Except Unit (Status_Flag × Deformation × ℤ) := fun _ => .error ()
  update_robust : Deformation → Except Unit (Status_Flag × Deformation × ℤ) := fun _ => .error ()
  gamma_of : Deformation → ℚ := fun _ => 0
  sigma_of : Deformation → ℚ := fun _ => 0
  path_distance_of : Deformation → ℚ := fun _ => 0

/-- `Schema::motion_detected` (lines 1000-1025): with no configured motion
window the subset always reports motion; otherwise the (possibly shared)
detector's answer is returned. -/
def motion_detected (orc : Objective_Behavior) : Bool :=
  orc.motion_window.getD true

/-- `Schema::record_failed_step` (lines 1027-1036): sigma, match and gamma go
to the sentinel `-1.0`; the status flag and iteration count are overwritten;
no other field is touched. -/
def record_failed_step (f : Fields) (status : Status_Flag) (num_iterations : ℤ) :
    Fields :=
  { f with sigma := -1, matchField := -1, gamma := -1,
           statusFlag := status, iterations := num_iterations }

/-- `Schema::record_step` (lines 1038-1057): store the six deformation
components plus sigma, match, gamma, status and iteration count. -/
def record_step (f : Fields) (d : Deformation) (sigma matchVal gamma : ℚ)
    (status : Status_Flag) (num_iterations : ℤ) : Fields :=
  { f with u := d.ux, v := d.uy, exx := d.ex, eyy := d.ey, gxy := d.gxy,
           theta := d.tz, sigma := sigma, matchField := matchVal,
           gamma := gamma, statusFlag := status, iterations := num_iterations }

/-- The phase-correlation initial guess (lines 1129-1131, repeated at
1202-1204 and 1225-1227): overwrite the displacement and rotation entries of
the deformation vector from the whole-image phase offsets and the current
field values, leaving the strain entries as they are. -/
def phaseGuess (cfg : Config) (f : Fields) (d : Deformation) : Deformation :=
  { d with ux := cfg.phase_cor_u_x + f.u, uy := cfg.phase_cor_u_y + f.v,
           tz := f.theta }

/-- The status value returned by the `Objective` initializers. -/
def initFlag (ok : Bool) : Status_Flag :=
  if ok then .INITIALIZE_SUCCESSFUL else .INITIALIZE_FAILED

/-- The initial-guess stage, i.e. the body of the `try` block of lines
1108-1137: produce the initialization status, the initial gamma and the
deformation vector, or propagate a thrown `std::logic_error`.  The branch
order is that of the source: a configured path file first (global search when
`sigma == -1` or on frame 0, else a local search near the previous solution),
then previous-frame field values, then the phase-correlation offset, then a
neighbor's solution. -/
def initial_guess_stage (cfg : Config) (orc : Objective_Behavior) (f : Fields) :
    Except Unit (Status_Flag × ℚ × Deformation) :=
  if orc.has_path_file then
    (if f.sigma = -1 ∨ cfg.image_frame = 0 then orc.path_init_global
     else orc.path_init_local f.u f.v f.theta).map
      fun p => (.INITIALIZE_SUCCESSFUL, p.1, p.2)
  else if cfg.initialization_method = .USE_FIELD_VALUES ∨
      (cfg.initialization_method = .USE_NEIGHBOR_VALUES_FIRST_STEP_ONLY ∧
        0 < cfg.image_frame) then
    orc.init_prev.map fun p => (initFlag p.1, 0, p.2)
  else if cfg.initialization_method = .USE_PHASE_CORRELATION then
    .ok (.INITIALIZE_SUCCESSFUL, 0, phaseGuess cfg f zeroDeformation)
  else
    orc.init_neighbor.map fun p => (initFlag p.1, 0, p.2)

/-- The re-initialization performed before a two-stage retry (lines 1199-1208
and 1222-1231).  Unlike the first initial-guess stage, this code is not inside
any `try` block in the source, so a thrown `std::logic_error` propagates out
of the routine (`Except.error`). -/
def retry_init_stage (cfg : Config) (orc : Objective_Behavior) (f : Fields)
    (d : Deformation) : Except Unit (Status_Flag × Deformation) :=
  if cfg.initialization_method = .USE_FIELD_VALUES ∨
      (cfg.initialization_method = .USE_NEIGHBOR_VALUES_FIRST_STEP_ONLY ∧
        0 < cfg.image_frame) then
    orc.init_prev.map fun p => (initFlag p.1, p.2)
  else if cfg.initialization_method = .USE_PHASE_CORRELATION then
    .ok (.INITIALIZE_SUCCESSFUL, phaseGuess cfg f d)
  else
    orc.init_neighbor.map fun p => (initFlag p.1, p.2)

/-- One optimizer attempt with its `try`/`catch` (lines 1177-1183, 1185-1191,
1209-1214, 1232-1237): a thrown `std::logic_error` becomes
`CORRELATION_FAILED_BY_EXCEPTION`, leaving the deformation vector and
iteration count with the values they had before the call. -/
def attempt (upd : Deformation → Except Unit (Status_Flag × Deformation × ℤ))
    (d : Deformation) (its : ℤ) : Status_Flag × Deformation × ℤ :=
  match upd d with
  | .ok r => r
  | .error _ => (.CORRELATION_FAILED_BY_EXCEPTION, d, its)

/-- The final-gamma gate, the path-distance gate and the successful commit
(lines 1244-1292).  On a high final gamma under phase-correlation
initialization, the phase offsets are first added back into the displacement
fields (lines 1253-1256); the successful commit records `init_status` as the
status flag (line 1285). -/
def finish_pass (cfg : Config) (orc : Objective_Behavior) (f : Fields)
    (init_status : Status_Flag) (d : Deformation) (its : ℤ) : Fields :=
  if cfg.final_gamma_threshold ≠ -1 ∧ orc.gamma_of d > cfg.final_gamma_threshold then
    record_failed_step
      (if cfg.initialization_method = .USE_PHASE_CORRELATION then
        { f with u := f.u + cfg.phase_cor_u_x, v := f.v + cfg.phase_cor_u_y }
       else f)
      .FRAME_FAILED_DUE_TO_HIGH_GAMMA its
  else if cfg.path_distance_threshold ≠ -1 ∧ orc.has_path_file then
    if orc.path_distance_of d > cfg.path_distance_threshold then
      record_failed_step f .FRAME_FAILED_DUE_TO_HIGH_PATH_DISTANCE its
    else
      record_step f d (orc.sigma_of d) 0 (orc.gamma_of d) init_status its
  else
    record_step f d (orc.sigma_of d) 0 (orc.gamma_of d) init_status its

/-- The correlation stage (lines 1176-1243): one attempt with the configured
method; on non-success, a single-method configuration records the failure,
while a two-stage configuration re-initializes (without a `try` block) and
retries exactly once with the other method, recording the failure only if the
retry also fails. -/
def optimize_stage (cfg : Config) (orc : Objective_Behavior) (f : Fields)
    (init_status : Status_Flag) (d : Deformation) : Except Unit Fields :=
  let first := match cfg.optimization_method with
    | .GRADIENT_BASED | .GRADIENT_BASED_THEN_SIMPLEX => attempt orc.update_fast d (-1)
    | .SIMPLEX | .SIMPLEX_THEN_GRADIENT_BASED => attempt orc.update_robust d (-1)
  if first.1 = .CORRELATION_SUCCESSFUL then
    .ok (finish_pass cfg orc f init_status first.2.1 first.2.2)
  else
    match cfg.optimization_method with
    | .SIMPLEX => .ok (record_failed_step f first.1 first.2.2)
    | .GRADIENT_BASED => .ok (record_failed_step f first.1 first.2.2)
    | .GRADIENT_BASED_THEN_SIMPLEX =>
      (retry_init_stage cfg orc f first.2.1).bind fun ri =>
        let second := attempt orc.update_robust ri.2 first.2.2
        if second.1 = .CORRELATION_SUCCESSFUL then
          .ok (finish_pass cfg orc f ri.1 second.2.1 second.2.2)
        else .ok (record_failed_step f second.1 second.2.2)
    | .SIMPLEX_THEN_GRADIENT_BASED =>
      (retry_init_stage cfg orc f first.2.1).bind fun ri =>
        let second := attempt orc.update_fast ri.2 first.2.2
        if second.1 = .CORRELATION_SUCCESSFUL then
          .ok (finish_pass cfg orc f ri.1 second.2.1 second.2.2)
        else .ok (record_failed_step f second.1 second.2.2)

/-- `Schema::generic_correlation_routine` (lines 1059-1352), as the transform
of one subset's fields over one frame.  `Except.error ()` is a
`std::logic_error` escaping the routine; every `Except.ok` outcome records
exactly one status.  In order: the motion gate (which touches only match,
status and iterations), the guarded initial-guess stage, the
initialization-failure check, the user-requested skip, the initial-gamma gate
(note: it records `INITIALIZE_FAILED` with the iteration count still at its
initial `-1`), and the correlation stage. -/
def generic_correlation_routine (cfg : Config) (orc : Objective_Behavior)
    (f : Fields) : Except Unit Fields :=
  if motion_detected orc = false then
    .ok { f with matchField := 0, statusFlag := .FRAME_SKIPPED_DUE_TO_NO_MOTION,
                 iterations := 0 }
  else
    match initial_guess_stage cfg orc f with
    | .error _ => .ok (record_failed_step f .INITIALIZE_FAILED_BY_EXCEPTION (-1))
    | .ok (init_status, initial_gamma, d) =>
      if init_status = .INITIALIZE_FAILED then
        .ok (record_failed_step f init_status (-1))
      else if orc.skip_solve_flag = some true then
        .ok (record_step f d (orc.sigma_of d) 0
          (if initial_gamma = 0 then orc.gamma_of d else initial_gamma)
          .FRAME_SKIPPED (-1))
      else if cfg.initial_gamma_threshold ≠ -1 ∧
          initial_gamma > cfg.initial_gamma_threshold then
        .ok (record_failed_step f .INITIALIZE_FAILED (-1))
      else optimize_stage cfg orc f init_status d

/-- Whether an `Except` outcome is a normal return (no escaped exception). -/
def isOkE {ε α : Type} : Except ε α → Bool
  | .ok _ => true
  | .error _ => false

/-- Decidable equality of `Except` outcomes, so that concrete runs of the
routine can be evaluated by `decide`. -/
def exceptDecEq {ε α : Type} [DecidableEq ε] [DecidableEq α] :
    (a b : Except ε α) → Decidable (a = b)
  | .ok a, .ok b =>
    if h : a = b then .isTrue (by rw [h]) else .isFalse (by simp [h])
  | .ok _, .error _ => .isFalse (by simp)
  | .error _, .ok _ => .isFalse (by simp)
  | .error e, .error e' =>
    if h : e = e' then .isTrue (by rw [h]) else .isFalse (by simp [h])

instance {ε α : Type} [DecidableEq ε] [DecidableEq α] : DecidableEq (Except ε α) :=
  exceptDecEq

/-- The field effect of a pass that ends carrying a failure status, as the
code actually produces it.  Either (first case) the pass went through
`record_failed_step`: displacement, rotation and strains keep their previous
values while sigma, match and gamma are the sentinel `-1`; or (second case) it
was the final-gamma failure under phase-correlation initialization, which
first adds the phase offsets into the displacement fields (lines 1253-1256);
or (third case) the pass committed successfully through `record_step` while
carrying `INITIALIZE_FAILED` as its status — possible because a two-stage
retry's re-initialization result is never checked (lines 1199-1208), so a
failed re-initialization followed by a converged second attempt commits all
fields under the initialization-failure flag. -/
def failedFieldContract (cfg : Config) (orc : Objective_Behavior)
    (f f' : Fields) : Prop :=
  (f'.u = f.u ∧ f'.v = f.v ∧ f'.theta = f.theta ∧ f'.exx = f.exx ∧
    f'.eyy = f.eyy ∧ f'.gxy = f.gxy ∧ f'.sigma = -1 ∧ f'.matchField = -1 ∧
    f'.gamma = -1) ∨
  (cfg.initialization_method = .USE_PHASE_CORRELATION ∧
    f'.statusFlag = .FRAME_FAILED_DUE_TO_HIGH_GAMMA ∧
    f'.u = f.u + cfg.phase_cor_u_x ∧ f'.v = f.v + cfg.phase_cor_u_y ∧
    f'.theta = f.theta ∧ f'.exx = f.exx ∧ f'.eyy = f.eyy ∧ f'.gxy = f.gxy ∧
    f'.sigma = -1 ∧ f'.matchField = -1 ∧ f'.gamma = -1) ∨
  (f'.statusFlag = .INITIALIZE_FAILED ∧
    ∃ d its, f' = record_step f d (orc.sigma_of d) 0 (orc.gamma_of d)
      .INITIALIZE_FAILED its)

/-! Part 5: concrete instances used to instantiate the theorems. -/

/-- A subset whose previous pass committed all-zero fields. -/
def fld0 : Fields := ⟨0, 0, 0, 0, 0, 0, 0, 0, 0, .CORRELATION_SUCCESSFUL, 0⟩

/-- Two-stage configuration, neighbor-value initialization. -/
def cfg_escape : Config :=
  { initialization_method := .USE_NEIGHBOR_VALUES,
    optimization_method := .GRADIENT_BASED_THEN_SIMPLEX, image_frame := 0 }

/-- A path-file subset whose fast optimizer attempt does not converge and
whose neighbor initializer (used only by the retry) throws. -/
def orc_escape : Objective_Behavior :=
  { has_path_file := true, path_init_global := .ok (0, zeroDeformation),
    update_fast := fun _ => .ok (.CORRELATION_FAILED, zeroDeformation, 3) }

/-- A path-file subset whose path initializer throws. -/
def orc_initthrow : Objective_Behavior :=
  { has_path_file := true, path_init_global := .error () }

/-- Field-value initialization with the two-stage fast-then-robust method. -/
def cfg_retry : Config :=
  { initialization_method := .USE_FIELD_VALUES,
    optimization_method := .GRADIENT_BASED_THEN_SIMPLEX, image_frame := 1 }

/-- A subset whose fast attempt fails to converge and whose robust retry
converges. -/
def orc_retry : Objective_Behavior :=
  { init_prev := .ok (true, zeroDeformation),
    update_fast := fun _ => .ok (.CORRELATION_FAILED, zeroDeformation, 2),
    update_robust := fun _ => .ok (.CORRELATION_SUCCESSFUL, zeroDeformation, 9) }

/-- Initial-gamma threshold configured at `0.05`. -/
def cfg_gate : Config :=
  { initialization_method := .USE_FIELD_VALUES,
    optimization_method := .GRADIENT_BASED, image_frame := 0,
    initial_gamma_threshold := mkRat 1 20 }

/-- A path-file subset whose initial guess comes back with gamma `0.10`. -/
def orc_gate : Objective_Behavior :=
  { has_path_file := true, path_init_global := .ok (mkRat 1 10, zeroDeformation) }

/-- Phase-correlation initialization with offset `5`, final-gamma threshold
`1`. -/
def cfg_phase : Config :=
  { initialization_method := .USE_PHASE_CORRELATION,
    optimization_method := .GRADIENT_BASED, image_frame := 1,
    final_gamma_threshold := 1, phase_cor_u_x := 5 }

/-- A subset whose optimizer converges but whose final gamma is `2`. -/
def orc_phase : Objective_Behavior :=
  { update_fast := fun d => .ok (.CORRELATION_SUCCESSFUL, d, 7),
    gamma_of := fun _ => 2 }

/-- A depth-one obstruction map (no blocker is itself blocked) on which the
dependency scan leaves an entry unabsorbed: point `1` blocked by `4`, point
`2` blocked by `0`, point `3` blocked by `4` and `0`. -/
def m_overlap : OMap := [(1, [4]), (2, [0]), (3, [4, 0])]

/-! Theorems.  Claim theorems are named `Cn_...`; the lemmas before them are
shared infrastructure. -/

/-- C7: whenever a neighbor-id array and a non-empty obstructing-subset map
are both configured, `create_seed_dist_map` sets the seed map to the
dependency partitioner's map itself (`seed_dist_map_ = dist_map_`) and
performs no seed-chain grouping. -/
theorem C7_seed_map_defers_to_dist_map (nbs : List ℤ) (m : OMap)
    (hm : 0 < m.length) :
    create_seed_dist_map (some nbs) (some m) = .distMap := by
  simp [create_seed_dist_map, hm]

theorem C7_witness :
    0 < ([(0, [1])] : OMap).length ∧
      create_seed_dist_map (some [-1, 0]) (some [(0, [1])]) = .distMap :=
  ⟨by decide, C7_seed_map_defers_to_dist_map [-1, 0] [(0, [1])] (by decide)⟩

/-- C9: `set_params` raises its fatal invalid-parameter error exactly when the
supplied parameter list contains a name outside both whitelists; when every
supplied name is whitelisted, this error is not raised. -/
theorem C9_whitelist_validation (validCorr validPP params : List String) :
    set_params validCorr validPP params = .error () ↔
      ∃ name ∈ params, name ∉ validCorr ∧ name ∉ validPP := by
  unfold set_params
  split
  next h =>
    simp only [allParamsValid, List.all_eq_true] at h
    constructor
    · intro hcontra; exact absurd hcontra (by simp)
    · rintro ⟨name, hmem, hc, hp⟩
      have := h name hmem
      simp only [Bool.or_eq_true] at this
      rcases this with hx | hx
      · exact absurd (by simpa using hx) hc
      · exact absurd (by simpa using hx) hp
  next h =>
    simp only [allParamsValid, List.all_eq_true, not_forall] at h
    constructor
    · intro _
      obtain ⟨name, hmem, hbad⟩ := h
      refine ⟨name, hmem, ?_, ?_⟩
      · intro hc; exact hbad (by simp [hc])
      · intro hp; exact hbad (by simp [hp])
    · intro _; rfl

/-- Helper: an in-range `getD` value is a member of the list. -/
theorem getD_mem_of_lt {α : Type} (l : List α) (n : ℕ) (d : α)
    (h : n < l.length) : l.getD n d ∈ l := by
  rw [List.getD_eq_getElem?_getD, List.getElem?_eq_getElem h]
  exact List.getElem_mem h

/-- C8: in every local id list produced by the dependency partitioner, every
id with no blockers appears before every id with at least one blocker (a
two-tier order). -/
theorem C8_unblocked_before_blocked (N P : ℕ) (m : OMap) (p i j : ℕ)
    (hi : i < (create_obstruction_dist_map N P m p).length)
    (hj : j < (create_obstruction_dist_map N P m p).length)
    (hni : hasBlockers m ((create_obstruction_dist_map N P m p).getD i 0) = false)
    (hbj : hasBlockers m ((create_obstruction_dist_map N P m p).getD j 0) = true) :
    i < j := by
  set L := ascendingIds N ((localSets N P m).getD p ∅) with hLdef
  have hsplit : create_obstruction_dist_map N P m p =
      L.filter (fun x => !hasBlockers m x) ++ L.filter (fun x => hasBlockers m x) := rfl
  set A := L.filter (fun x => !hasBlockers m x) with hA
  set B := L.filter (fun x => hasBlockers m x) with hB
  rw [hsplit] at hi hj hni hbj
  rw [List.length_append] at hi hj
  have hiA : i < A.length := by
    by_contra hcon
    push_neg at hcon
    have hgot : (A ++ B).getD i 0 = B.getD (i - A.length) 0 := by
      rw [List.getD_eq_getElem?_getD, List.getD_eq_getElem?_getD,
        List.getElem?_append_right hcon]
    have hmem : B.getD (i - A.length) 0 ∈ B :=
      getD_mem_of_lt B (i - A.length) 0 (by omega)
    rw [hgot] at hni
    rw [hB, List.mem_filter, hni] at hmem
    exact absurd hmem.2 (by simp)
  have hjA : A.length ≤ j := by
    by_contra hcon
    push_neg at hcon
    have hgot : (A ++ B).getD j 0 = A.getD j 0 := by
      rw [List.getD_eq_getElem?_getD, List.getD_eq_getElem?_getD,
        List.getElem?_append_left hcon]
    have hmem : A.getD j 0 ∈ A := getD_mem_of_lt A j 0 hcon
    rw [hgot] at hbj
    rw [hA, List.mem_filter, hbj] at hmem
    exact absurd hmem.2 (by simp)
  omega

/-- Helper: a normal `Except` outcome is an `ok` value. -/
theorem isOkE_iff {ε α : Type} (e : Except ε α) :
    isOkE e = true ↔ ∃ v, e = .ok v := by
  cases e <;> simp [isOkE]

/-- Helper: the routine returns normally whenever its correlation stage
does (every stage before the correlation stage returns normally). -/
theorem routine_ok_of_optimize_ok (cfg : Config) (orc : Objective_Behavior)
    (f : Fields)
    (hopt : ∀ st d, isOkE (optimize_stage cfg orc f st d) = true) :
    isOkE (generic_correlation_routine cfg orc f) = true := by
  unfold generic_correlation_routine
  split
  · simp [isOkE]
  · cases hig : initial_guess_stage cfg orc f with
    | error e => simp [isOkE]
    | ok v =>
      obtain ⟨st, g0, d⟩ := v
      dsimp only
      split
      · simp [isOkE]
      · split
        · simp [isOkE]
        · split
          · simp [isOkE]
          · exact hopt st d

/-- Helper: a single-method correlation stage always returns normally. -/
theorem optimize_stage_ok_single (cfg : Config) (orc : Objective_Behavior)
    (f : Fields) (st : Status_Flag) (d : Deformation)
    (h1 : cfg.optimization_method = .GRADIENT_BASED ∨
      cfg.optimization_method = .SIMPLEX) :
    isOkE (optimize_stage cfg orc f st d) = true := by
  unfold optimize_stage
  rcases h1 with h1 | h1 <;> rw [h1] <;> dsimp only <;> split <;> simp [isOkE]

/-- Helper: the correlation stage returns normally provided the retry's
re-initialization does not throw. -/
theorem optimize_stage_ok_retry (cfg : Config) (orc : Objective_Behavior)
    (f : Fields) (st : Status_Flag) (d : Deformation)
    (hr : ∀ d', isOkE (retry_init_stage cfg orc f d') = true) :
    isOkE (optimize_stage cfg orc f st d) = true := by
  unfold optimize_stage
  cases h1 : cfg.optimization_method
  case SIMPLEX => dsimp only; split <;> simp [isOkE]
  case GRADIENT_BASED => dsimp only; split <;> simp [isOkE]
  case SIMPLEX_THEN_GRADIENT_BASED =>
    dsimp only
    split
    · simp [isOkE]
    · obtain ⟨ri, hri⟩ := (isOkE_iff _).mp (hr _)
      rw [hri]
      dsimp only [Except.bind]
      split <;> simp [isOkE]
  case GRADIENT_BASED_THEN_SIMPLEX =>
    dsimp only
    split
    · simp [isOkE]
    · obtain ⟨ri, hri⟩ := (isOkE_iff _).mp (hr _)
      rw [hri]
      dsimp only [Except.bind]
      split <;> simp [isOkE]

/-- C5 (amended): when the initial-quality threshold is configured and the
computed initial gamma exceeds it, the pass stops at the initial-gamma gate
and records the initialization-failure status, with sigma, match and gamma at
the sentinel `-1` — but with the iteration count at its initial `-1`, not
`0`. -/
theorem C5_initial_gamma_gate (cfg : Config) (orc : Objective_Behavior)
    (f : Fields) (st : Status_Flag) (g0 : ℚ) (d : Deformation)
    (hm : motion_detected orc = true)
    (hinit : initial_guess_stage cfg orc f = .ok (st, g0, d))
    (hst : st ≠ .INITIALIZE_FAILED)
    (hskip : orc.skip_solve_flag ≠ some true)
    (hthr : cfg.initial_gamma_threshold ≠ -1)
    (hg : g0 > cfg.initial_gamma_threshold) :
    generic_correlation_routine cfg orc f =
      .ok (record_failed_step f .INITIALIZE_FAILED (-1)) ∧
    (record_failed_step f .INITIALIZE_FAILED (-1)).sigma = -1 ∧
    (record_failed_step f .INITIALIZE_FAILED (-1)).matchField = -1 ∧
    (record_failed_step f .INITIALIZE_FAILED (-1)).gamma = -1 ∧
    (record_failed_step f .INITIALIZE_FAILED (-1)).statusFlag = .INITIALIZE_FAILED ∧
    (record_failed_step f .INITIALIZE_FAILED (-1)).iterations = -1 := by
  refine ⟨?_, rfl, rfl, rfl, rfl, rfl⟩
  unfold generic_correlation_routine
  rw [if_neg (by simp [hm])]
  rw [hinit]
  dsimp only
  rw [if_neg hst, if_neg hskip, if_pos ⟨hthr, hg⟩]

theorem C5_witness :
    motion_detected orc_gate = true ∧
    initial_guess_stage cfg_gate orc_gate fld0 =
      .ok (.INITIALIZE_SUCCESSFUL, mkRat 1 10, zeroDeformation) ∧
    (.INITIALIZE_SUCCESSFUL : Status_Flag) ≠ .INITIALIZE_FAILED ∧
    orc_gate.skip_solve_flag ≠ some true ∧
    cfg_gate.initial_gamma_threshold ≠ -1 ∧
    mkRat 1 10 > cfg_gate.initial_gamma_threshold ∧
    generic_correlation_routine cfg_gate orc_gate fld0 =
      .ok (record_failed_step fld0 .INITIALIZE_FAILED (-1)) :=
  ⟨by decide, by decide, by decide, by decide, by decide, by decide,
    (C5_initial_gamma_gate cfg_gate orc_gate fld0 .INITIALIZE_SUCCESSFUL
      (mkRat 1 10) zeroDeformation (by decide) (by decide) (by decide)
      (by decide) (by decide) (by decide)).1⟩

/-- C5 counterexample: the claim as stated requires the iteration count to be
set to `0` at the initial-gamma gate, but the gate records the iteration count
still at its initial `-1` (`num_iterations` is never written before line
1168). -/
theorem C5_counterexample :
    ¬ (∀ (cfg : Config) (orc : Objective_Behavior) (f f' : Fields)
        (st : Status_Flag) (d : Deformation),
        motion_detected orc = true →
        initial_guess_stage cfg orc f = .ok (st, mkRat 1 10, d) →
        st ≠ .INITIALIZE_FAILED →
        orc.skip_solve_flag ≠ some true →
        cfg.initial_gamma_threshold = mkRat 1 20 →
        generic_correlation_routine cfg orc f = .ok f' →
        f'.iterations = 0) := by
  intro h
  have := h cfg_gate orc_gate fld0 (record_failed_step fld0 .INITIALIZE_FAILED (-1))
    .INITIALIZE_SUCCESSFUL zeroDeformation (by decide) (by decide) (by decide)
    (by decide) (by decide) (by decide)
  exact absurd this (by decide)

/-- C4 (amended): with the fast-then-robust fallback configured, a
non-converged fast attempt triggers exactly one retry, which first recomputes
the initial guess and then runs the robust update on the recomputed guess; if
the robust update converges (and the final gates pass), the recorded status is
the success status of the pass — the re-initialization's
`INITIALIZE_SUCCESSFUL`, which the commit at line 1285 records — and never the
fast attempt's failure status. -/
theorem C4_fallback_records_success (cfg : Config) (orc : Objective_Behavior)
    (f : Fields) (st : Status_Flag) (g0 : ℚ) (d : Deformation)
    (st1 : Status_Flag) (d1 : Deformation) (its1 : ℤ)
    (d2 d3 : Deformation) (its3 : ℤ)
    (hopt : cfg.optimization_method = .GRADIENT_BASED_THEN_SIMPLEX)
    (hm : motion_detected orc = true)
    (hinit : initial_guess_stage cfg orc f = .ok (st, g0, d))
    (hst : st ≠ .INITIALIZE_FAILED)
    (hskip : orc.skip_solve_flag ≠ some true)
    (hgate : ¬ (cfg.initial_gamma_threshold ≠ -1 ∧ g0 > cfg.initial_gamma_threshold))
    (hfast : orc.update_fast d = .ok (st1, d1, its1))
    (hfail : st1 ≠ .CORRELATION_SUCCESSFUL)
    (hretry : retry_init_stage cfg orc f d1 = .ok (.INITIALIZE_SUCCESSFUL, d2))
    (hrobust : orc.update_robust d2 = .ok (.CORRELATION_SUCCESSFUL, d3, its3))
    (hfg : cfg.final_gamma_threshold = -1)
    (hpd : cfg.path_distance_threshold = -1) :
    generic_correlation_routine cfg orc f =
      .ok (record_step f d3 (orc.sigma_of d3) 0 (orc.gamma_of d3)
        .INITIALIZE_SUCCESSFUL its3) ∧
    (isFailureStatus st1 = true →
      (record_step f d3 (orc.sigma_of d3) 0 (orc.gamma_of d3)
        .INITIALIZE_SUCCESSFUL its3).statusFlag ≠ st1) := by
  constructor
  · unfold generic_correlation_routine
    rw [if_neg (by simp [hm])]
    rw [hinit]
    dsimp only
    rw [if_neg hst, if_neg hskip, if_neg hgate]
    unfold optimize_stage
    rw [hopt]
    dsimp only
    simp only [attempt, hfast]
    rw [if_neg hfail]
    rw [hretry]
    dsimp only [Except.bind]
    simp only [attempt, hrobust]
    rw [if_pos trivial]
    unfold finish_pass
    rw [hfg, hpd]
    rw [if_neg (by simp)]
    rw [if_neg (by simp)]
  · intro hf hcontra
    have : (record_step f d3 (orc.sigma_of d3) 0 (orc.gamma_of d3)
        .INITIALIZE_SUCCESSFUL its3).statusFlag = .INITIALIZE_SUCCESSFUL := rfl
    rw [this] at hcontra
    rw [← hcontra] at hf
    exact absurd hf (by decide)

theorem C4_witness :
    cfg_retry.optimization_method = .GRADIENT_BASED_THEN_SIMPLEX ∧
    motion_detected orc_retry = true ∧
    initial_guess_stage cfg_retry orc_retry fld0 =
      .ok (.INITIALIZE_SUCCESSFUL, 0, zeroDeformation) ∧
    orc_retry.update_fast zeroDeformation =
      .ok (.CORRELATION_FAILED, zeroDeformation, 2) ∧
    retry_init_stage cfg_retry orc_retry fld0 zeroDeformation =
      .ok (.INITIALIZE_SUCCESSFUL, zeroDeformation) ∧
    orc_retry.update_robust zeroDeformation =
      .ok (.CORRELATION_SUCCESSFUL, zeroDeformation, 9) ∧
    generic_correlation_routine cfg_retry orc_retry fld0 =
      .ok (record_step fld0 zeroDeformation (orc_retry.sigma_of zeroDeformation) 0
        (orc_retry.gamma_of zeroDeformation) .INITIALIZE_SUCCESSFUL 9) :=
  ⟨rfl, by decide, by decide, by decide, by decide, by decide,
    (C4_fallback_records_success cfg_retry orc_retry fld0 .INITIALIZE_SUCCESSFUL 0
      zeroDeformation .CORRELATION_FAILED zeroDeformation 2 zeroDeformation
      zeroDeformation 9 rfl (by decide) (by decide) (by decide) (by decide)
      (by decide) (by decide) (by decide) (by decide) (by decide) rfl rfl).1⟩

/-- C4 counterexample: the claim as stated says the recorded status is the
robust attempt's success status (`CORRELATION_SUCCESSFUL`); the commit at line
1285 records `init_status` instead, so the stored flag is
`INITIALIZE_SUCCESSFUL`. -/
theorem C4_counterexample :
    ¬ (∀ (cfg : Config) (orc : Objective_Behavior) (f f' : Fields)
        (st : Status_Flag) (g0 : ℚ) (d : Deformation)
        (st1 : Status_Flag) (d1 : Deformation) (its1 : ℤ)
        (d2 d3 : Deformation) (its3 : ℤ),
        cfg.optimization_method = .GRADIENT_BASED_THEN_SIMPLEX →
        motion_detected orc = true →
        initial_guess_stage cfg orc f = .ok (st, g0, d) →
        st ≠ .INITIALIZE_FAILED →
        orc.skip_solve_flag ≠ some true →
        ¬ (cfg.initial_gamma_threshold ≠ -1 ∧ g0 > cfg.initial_gamma_threshold) →
        orc.update_fast d = .ok (st1, d1, its1) →
        st1 ≠ .CORRELATION_SUCCESSFUL →
        retry_init_stage cfg orc f d1 = .ok (.INITIALIZE_SUCCESSFUL, d2) →
        orc.update_robust d2 = .ok (.CORRELATION_SUCCESSFUL, d3, its3) →
        generic_correlation_routine cfg orc f = .ok f' →
        f'.statusFlag = .CORRELATION_SUCCESSFUL) := by
  intro h
  have := h cfg_retry orc_retry fld0
    (record_step fld0 zeroDeformation 0 0 0 .INITIALIZE_SUCCESSFUL 9)
    .INITIALIZE_SUCCESSFUL 0 zeroDeformation .CORRELATION_FAILED zeroDeformation 2
    zeroDeformation zeroDeformation 9 rfl (by decide) (by decide) (by decide)
    (by decide) (by decide) (by decide) (by decide) (by decide) (by decide)
    (by decide)
  exact absurd this (by decide)

/-- C2 (amended): the exception policy of the per-point pipeline.  A
`std::logic_error` thrown in the guarded initial-guess stage is caught and
recorded as `INITIALIZE_FAILED_BY_EXCEPTION`; both single-method
configurations (`GRADIENT_BASED` and `SIMPLEX`) never let an exception escape,
and record `CORRELATION_FAILED_BY_EXCEPTION` when the sole attempt throws;
both two-stage configurations (`GRADIENT_BASED_THEN_SIMPLEX` and
`SIMPLEX_THEN_GRADIENT_BASED`) never let an exception escape provided the
retry's re-initialization does not throw, and record
`CORRELATION_FAILED_BY_EXCEPTION` when both attempts throw.  (The retry's
re-initialization itself is outside every `try` block — see the
counterexample.) -/
theorem C2_exception_policy (cfg : Config) (orc : Objective_Behavior)
    (f : Fields) (hm : motion_detected orc = true) :
    (initial_guess_stage cfg orc f = .error () →
      generic_correlation_routine cfg orc f =
        .ok (record_failed_step f .INITIALIZE_FAILED_BY_EXCEPTION (-1))) ∧
    ((cfg.optimization_method = .GRADIENT_BASED ∨
        cfg.optimization_method = .SIMPLEX) →
      isOkE (generic_correlation_routine cfg orc f) = true) ∧
    (∀ st g0 d, initial_guess_stage cfg orc f = .ok (st, g0, d) →
      st ≠ .INITIALIZE_FAILED → orc.skip_solve_flag ≠ some true →
      ¬ (cfg.initial_gamma_threshold ≠ -1 ∧ g0 > cfg.initial_gamma_threshold) →
      cfg.optimization_method = .GRADIENT_BASED →
      orc.update_fast d = .error () →
      generic_correlation_routine cfg orc f =
        .ok (record_failed_step f .CORRELATION_FAILED_BY_EXCEPTION (-1))) ∧
    ((∀ d', isOkE (retry_init_stage cfg orc f d') = true) →
      isOkE (generic_correlation_routine cfg orc f) = true) ∧
    (∀ st g0 d st2 d2, initial_guess_stage cfg orc f = .ok (st, g0, d) →
      st ≠ .INITIALIZE_FAILED → orc.skip_solve_flag ≠ some true →
      ¬ (cfg.initial_gamma_threshold ≠ -1 ∧ g0 > cfg.initial_gamma_threshold) →
      cfg.optimization_method = .GRADIENT_BASED_THEN_SIMPLEX →
      (∀ d', orc.update_fast d' = .error ()) →
      (∀ d', orc.update_robust d' = .error ()) →
      retry_init_stage cfg orc f d = .ok (st2, d2) →
      generic_correlation_routine cfg orc f =
        .ok (record_failed_step f .CORRELATION_FAILED_BY_EXCEPTION (-1))) ∧
    (∀ st g0 d, initial_guess_stage cfg orc f = .ok (st, g0, d) →
      st ≠ .INITIALIZE_FAILED → orc.skip_solve_flag ≠ some true →
      ¬ (cfg.initial_gamma_threshold ≠ -1 ∧ g0 > cfg.initial_gamma_threshold) →
      cfg.optimization_method = .SIMPLEX →
      orc.update_robust d = .error () →
      generic_correlation_routine cfg orc f =
        .ok (record_failed_step f .CORRELATION_FAILED_BY_EXCEPTION (-1))) ∧
    (∀ st g0 d st2 d2, initial_guess_stage cfg orc f = .ok (st, g0, d) →
      st ≠ .INITIALIZE_FAILED → orc.skip_solve_flag ≠ some true →
      ¬ (cfg.initial_gamma_threshold ≠ -1 ∧ g0 > cfg.initial_gamma_threshold) →
      cfg.optimization_method = .SIMPLEX_THEN_GRADIENT_BASED →
      (∀ d', orc.update_fast d' = .error ()) →
      (∀ d', orc.update_robust d' = .error ()) →
      retry_init_stage cfg orc f d = .ok (st2, d2) →
      generic_correlation_routine cfg orc f =
        .ok (record_failed_step f .CORRELATION_FAILED_BY_EXCEPTION (-1))) := by
  refine ⟨?_, ?_, ?_, ?_, ?_, ?_, ?_⟩
  · intro herr
    unfold generic_correlation_routine
    rw [if_neg (by simp [hm])]
    rw [herr]
  · intro hopt
    exact routine_ok_of_optimize_ok cfg orc f fun st d =>
      optimize_stage_ok_single cfg orc f st d hopt
  · intro st g0 d hig hst hskip hgate hopt hthrow
    unfold generic_correlation_routine
    rw [if_neg (by simp [hm])]
    rw [hig]
    dsimp only
    rw [if_neg hst, if_neg hskip, if_neg hgate]
    unfold optimize_stage
    rw [hopt]
    dsimp only
    simp only [attempt, hthrow]
    rw [if_neg (by decide : ¬ (Status_Flag.CORRELATION_FAILED_BY_EXCEPTION =
      .CORRELATION_SUCCESSFUL))]
  · intro hretry
    exact routine_ok_of_optimize_ok cfg orc f fun st d =>
      optimize_stage_ok_retry cfg orc f st d hretry
  · intro st g0 d st2 d2 hig hst hskip hgate hopt hfast hrobust hretry
    unfold generic_correlation_routine
    rw [if_neg (by simp [hm])]
    rw [hig]
    dsimp only
    rw [if_neg hst, if_neg hskip, if_neg hgate]
    unfold optimize_stage
    rw [hopt]
    dsimp only
    simp only [attempt, hfast d]
    rw [if_neg (by decide : ¬ (Status_Flag.CORRELATION_FAILED_BY_EXCEPTION =
      .CORRELATION_SUCCESSFUL))]
    rw [hretry]
    dsimp only [Except.bind]
    simp only [attempt, hrobust d2]
    rw [if_neg (by decide : ¬ (Status_Flag.CORRELATION_FAILED_BY_EXCEPTION =
      .CORRELATION_SUCCESSFUL))]
  · intro st g0 d hig hst hskip hgate hopt hthrow
    unfold generic_correlation_routine
    rw [if_neg (by simp [hm])]
    rw [hig]
    dsimp only
    rw [if_neg hst, if_neg hskip, if_neg hgate]
    unfold optimize_stage
    rw [hopt]
    dsimp only
    simp only [attempt, hthrow]
    rw [if_neg (by decide : ¬ (Status_Flag.CORRELATION_FAILED_BY_EXCEPTION =
      .CORRELATION_SUCCESSFUL))]
  · intro st g0 d st2 d2 hig hst hskip hgate hopt hfast hrobust hretry
    unfold generic_correlation_routine
    rw [if_neg (by simp [hm])]
    rw [hig]
    dsimp only
    rw [if_neg hst, if_neg hskip, if_neg hgate]
    unfold optimize_stage
    rw [hopt]
    dsimp only
    simp only [attempt, hrobust d]
    rw [if_neg (by decide : ¬ (Status_Flag.CORRELATION_FAILED_BY_EXCEPTION =
      .CORRELATION_SUCCESSFUL))]
    rw [hretry]
    dsimp only [Except.bind]
    simp only [attempt, hfast d2]
    rw [if_neg (by decide : ¬ (Status_Flag.CORRELATION_FAILED_BY_EXCEPTION =
      .CORRELATION_SUCCESSFUL))]

theorem C2_witness :
    motion_detected orc_initthrow = true ∧
    initial_guess_stage cfg_escape orc_initthrow fld0 = .error () ∧
    generic_correlation_routine cfg_escape orc_initthrow fld0 =
      .ok (record_failed_step fld0 .INITIALIZE_FAILED_BY_EXCEPTION (-1)) :=
  ⟨by decide, by decide,
    (C2_exception_policy cfg_escape orc_initthrow fld0 (by decide)).1 (by decide)⟩

/-- C2 counterexample: an exception can escape the per-point routine.  With a
two-stage optimizer, a non-converged first attempt re-initializes at lines
1199-1208 outside any `try` block; a `std::logic_error` thrown there
propagates out of `generic_correlation_routine`, contradicting the claim that
no exception escapes the per-point pass. -/
theorem C2_counterexample :
    ¬ (∀ (cfg : Config) (orc : Objective_Behavior) (f : Fields),
        isOkE (generic_correlation_routine cfg orc f) = true) := by
  intro h
  exact absurd (h cfg_escape orc_escape fld0) (by decide)

/-- Helper: the seed scan only moves ids between the open grouping, the
closed groupings and the unvisited ids: flattening the closed groupings and
appending the final open grouping reproduces the initial state followed by the
visited ids. -/
theorem seedScan_flatten (nb : List ℤ) :
    ∀ (L cur : List ℕ) (closed : List (List ℕ)),
      (seedScan nb L cur closed).1.flatten ++ (seedScan nb L cur closed).2 =
        closed.flatten ++ cur ++ L := by
  intro L
  induction L with
  | nil => intro cur closed; simp [seedScan]
  | cons i rest ih =>
    intro cur closed
    unfold seedScan
    split
    · rw [ih]
      simp
    · rw [ih]
      simp

/-- Helper: every id in a closed grouping is at or below some seed of the
scanned ids (groupings close exactly at seeds, and the scan is strictly
decreasing). -/
theorem seedScan_seed_le (nb : List ℤ) :
    ∀ (L cur : List ℕ) (closed : List (List ℕ)) (x : ℕ),
      (cur ++ L).Pairwise (· > ·) →
      x ∈ (seedScan nb L cur closed).1.flatten →
      x ∈ closed.flatten ∨ ∃ j ∈ L, nbAt nb j = -1 ∧ j ≤ x := by
  intro L
  induction L with
  | nil =>
    intro cur closed x _ hx
    exact Or.inl (by simpa [seedScan] using hx)
  | cons i rest ih =>
    intro cur closed x hsort hx
    unfold seedScan at hx
    by_cases hseed : nbAt nb i = -1
    · rw [if_pos hseed] at hx
      have hsub : rest.Sublist (cur ++ i :: rest) :=
        ((List.sublist_cons_self i rest).trans
          (List.sublist_append_right cur (i :: rest)))
      have hsort' : (([] : List ℕ) ++ rest).Pairwise (· > ·) := by
        simpa using hsort.sublist hsub
      rcases ih [] (closed ++ [cur ++ [i]]) x hsort' hx with hin | hrest
      · rw [List.flatten_append] at hin
        rcases List.mem_append.mp hin with h1 | h1
        · exact Or.inl h1
        · have hci : x ∈ cur ++ [i] := by simpa using h1
          rcases List.mem_append.mp hci with h2 | h2
          · refine Or.inr ⟨i, List.mem_cons_self i rest, hseed, le_of_lt ?_⟩
            have hcross := (List.pairwise_append.mp hsort).2.2
            exact hcross x h2 i (List.mem_cons_self i rest)
          · have : x = i := by simpa using h2
            exact Or.inr ⟨i, List.mem_cons_self i rest, hseed, by omega⟩
      · obtain ⟨j, hj, hs, hle⟩ := hrest
        exact Or.inr ⟨j, List.mem_cons_of_mem i hj, hs, hle⟩
    · rw [if_neg hseed] at hx
      have hsort' : ((cur ++ [i]) ++ rest).Pairwise (· > ·) := by
        rw [List.append_assoc, List.singleton_append]; exact hsort
      rcases ih (cur ++ [i]) closed x hsort' hx with hin | hrest
      · exact Or.inl hin
      · obtain ⟨j, hj, hs, hle⟩ := hrest
        exact Or.inr ⟨j, List.mem_cons_of_mem i hj, hs, hle⟩

/-- Helper: when the last visited id is a seed, the final open grouping is
empty. -/
theorem seedScan_last_seed (nb : List ℤ) :
    ∀ (L cur : List ℕ) (closed : List (List ℕ)) (t : ℕ),
      L.getLast? = some t → nbAt nb t = -1 →
      (seedScan nb L cur closed).2 = [] := by
  intro L
  induction L with
  | nil => intro cur closed t h _; simp at h
  | cons i rest ih =>
    intro cur closed t hlast hseed
    cases rest with
    | nil =>
      have hti : t = i := by simpa using hlast.symm
      subst hti
      unfold seedScan
      rw [if_pos hseed]
      rfl
    | cons j rest' =>
      rw [List.getLast?_cons_cons] at hlast
      unfold seedScan
      split
      · exact ih [] (closed ++ [cur ++ [i]]) t hlast hseed
      · exact ih (cur ++ [i]) closed t hlast hseed

/-- Helper: every closed grouping is nonempty, consecutive-descending, and
ends at a seed. -/
theorem seedScan_groups_good (nb : List ℤ) :
    ∀ (L cur : List ℕ) (closed : List (List ℕ)),
      (cur ++ L).Chain' (fun a b => a = b + 1) →
      ∀ g ∈ (seedScan nb L cur closed).1,
        g ∈ closed ∨
          (g ≠ [] ∧ (∃ t, g.getLast? = some t ∧ nbAt nb t = -1) ∧
            g.Chain' (fun a b => a = b + 1)) := by
  intro L
  induction L with
  | nil =>
    intro cur closed _ g hg
    exact Or.inl (by simpa [seedScan] using hg)
  | cons i rest ih =>
    intro cur closed hch g hg
    unfold seedScan at hg
    by_cases hseed : nbAt nb i = -1
    · rw [if_pos hseed] at hg
      have hch2 : ((cur ++ [i]) ++ rest).Chain' (fun a b => a = b + 1) := by
        rw [List.append_assoc, List.singleton_append]; exact hch
      have hchr : (([] : List ℕ) ++ rest).Chain' (fun a b => a = b + 1) := by
        simpa using (List.chain'_append.mp hch2).2.1
      rcases ih [] (closed ++ [cur ++ [i]]) hchr g hg with hin | hgood
      · rcases List.mem_append.mp hin with h1 | h1
        · exact Or.inl h1
        · have hgc : g = cur ++ [i] := by simpa using h1
          subst hgc
          refine Or.inr ⟨by simp, ⟨i, by simp, hseed⟩, ?_⟩
          exact (List.chain'_append.mp hch2).1
      · exact Or.inr hgood
    · rw [if_neg hseed] at hg
      have hch2 : ((cur ++ [i]) ++ rest).Chain' (fun a b => a = b + 1) := by
        rw [List.append_assoc, List.singleton_append]; exact hch
      exact ih (cur ++ [i]) closed hch2 g hg

/-- Helper: the reversed range `[n-1, ..., 0]` steps down by exactly one. -/
theorem chain'_reverse_range (n : ℕ) :
    ((List.range n).reverse).Chain' (fun a b => a = b + 1) := by
  rw [List.chain'_reverse]
  cases n with
  | zero => simp
  | succ k =>
    refine (List.chain'_range_succ _ k).mpr ?_
    intro m _
    rfl

/-- Helper: the reversed range is strictly decreasing. -/
theorem pairwise_gt_reverse_range (n : ℕ) :
    ((List.range n).reverse).Pairwise (· > ·) := by
  rw [List.pairwise_reverse]
  simpa using List.pairwise_lt_range n

/-- C6 (amended): every chain produced by the seed partitioner starts at an id
whose neighbor-id is the seed sentinel `-1`, and each chain is a consecutive
ascending run of ids: the id immediately preceding a non-seed id in its chain
is its numeric predecessor `id - 1`.  The stored neighbor-ids of non-seed ids
are never consulted by the grouping scan. -/
theorem C6_chains_consecutive_from_seed (nb : List ℤ) (c : List ℕ)
    (hc : c ∈ seedGroupings nb) :
    (∃ s, c.head? = some s ∧ nbAt nb s = -1) ∧
      c.Chain' (fun a b => b = a + 1) := by
  unfold seedGroupings at hc
  rw [List.mem_map] at hc
  obtain ⟨g, hg, rfl⟩ := hc
  have hch : (([] : List ℕ) ++ (List.range nb.length).reverse).Chain'
      (fun a b => a = b + 1) := by
    simpa using chain'_reverse_range nb.length
  rcases seedScan_groups_good nb ((List.range nb.length).reverse) [] [] hch g hg
    with h | ⟨_, ⟨t, hlast, hseed⟩, hchain⟩
  · simp at h
  · refine ⟨⟨t, ?_, hseed⟩, ?_⟩
    · rw [List.head?_reverse]; exact hlast
    · rw [List.chain'_reverse]
      exact hchain

theorem C6_witness :
    ([1, 2] ∈ seedGroupings [-1, -1, 0]) ∧
    ((∃ s, ([1, 2] : List ℕ).head? = some s ∧ nbAt [-1, -1, 0] s = -1) ∧
      List.Chain' (fun a b => b = a + 1) [1, 2]) :=
  ⟨by decide, C6_chains_consecutive_from_seed [-1, -1, 0] [1, 2] (by decide)⟩

/-- C6 counterexample: the claim as stated says every non-seed id's stored
neighbor-id equals the id immediately preceding it in its chain.  The scan
groups purely by consecutive id runs and never reads non-seed neighbor-ids:
with `neighbor_ids = [-1, 0, 0]` the single chain is `[0, 1, 2]`, where id `2`
is preceded by `1` but stores neighbor-id `0`. -/
theorem C6_counterexample :
    ¬ (∀ (nb : List ℤ) (c : List ℕ), c ∈ seedGroupings nb →
        (∃ s, c.head? = some s ∧ nbAt nb s = -1) ∧
          c.Chain' (fun a b => nbAt nb b = (a : ℤ))) := by
  intro h
  have h2 := (h [-1, 0, 0] [0, 1, 2] (by decide)).2
  rw [List.chain'_cons, List.chain'_cons] at h2
  exact absurd h2.2.1 (by decide)

/-- C10: every id below all seeds — the trailing run of the highest-to-lowest
scan that never hits a seed — is omitted from every chain and hence absent
from the seed distribution map; the chains cover all ids exactly when id `0`
itself closes a chain, i.e. when `neighbor_ids[0]` is the seed sentinel. -/
theorem C10_trailing_run_dropped (nb : List ℤ) :
    (∀ x, (∀ j, j < nb.length → nbAt nb j = -1 → x < j) →
      ∀ c ∈ seedGroupings nb, x ∉ c) ∧
    (0 < nb.length →
      (∀ x, x < nb.length → ∃ c ∈ seedGroupings nb, x ∈ c) →
      nbAt nb 0 = -1) ∧
    (nbAt nb 0 = -1 →
      ∀ x, x < nb.length → ∃ c ∈ seedGroupings nb, x ∈ c) := by
  have key : ∀ x, x ∈ ((seedScan nb ((List.range nb.length).reverse) [] []).1).flatten →
      ∃ j, j < nb.length ∧ nbAt nb j = -1 ∧ j ≤ x := by
    intro x hx
    have hsort : (([] : List ℕ) ++ (List.range nb.length).reverse).Pairwise (· > ·) := by
      simpa using pairwise_gt_reverse_range nb.length
    rcases seedScan_seed_le nb ((List.range nb.length).reverse) [] [] x hsort hx
      with h | ⟨j, hj, hs, hle⟩
    · simp at h
    · rw [List.mem_reverse, List.mem_range] at hj
      exact ⟨j, hj, hs, hle⟩
  have memflat : ∀ x (c : List ℕ), c ∈ seedGroupings nb → x ∈ c →
      x ∈ ((seedScan nb ((List.range nb.length).reverse) [] []).1).flatten := by
    intro x c hc hx
    unfold seedGroupings at hc
    rw [List.mem_map] at hc
    obtain ⟨g, hg, rfl⟩ := hc
    rw [List.mem_reverse] at hx
    exact List.mem_flatten.mpr ⟨g, hg, hx⟩
  refine ⟨?_, ?_, ?_⟩
  · intro x hx c hc hmem
    obtain ⟨j, hjN, hseed, hle⟩ := key x (memflat x c hc hmem)
    exact absurd (hx j hjN hseed) (by omega)
  · intro hN hcov
    obtain ⟨c, hc, h0⟩ := hcov 0 hN
    obtain ⟨j, hjN, hseed, hle⟩ := key 0 (memflat 0 c hc h0)
    have : j = 0 := by omega
    subst this
    exact hseed
  · intro h0 x hx
    have hN : 0 < nb.length := by omega
    have hlast : ((List.range nb.length).reverse).getLast? = some 0 := by
      rw [List.getLast?_reverse, List.head?_range]
      simp [Nat.pos_iff_ne_zero.mp hN]
    have hcur : (seedScan nb ((List.range nb.length).reverse) [] []).2 = [] :=
      seedScan_last_seed nb _ [] [] 0 hlast h0
    have hflat := seedScan_flatten nb ((List.range nb.length).reverse) [] []
    rw [hcur, List.append_nil] at hflat
    have hxL : x ∈ ((seedScan nb ((List.range nb.length).reverse) [] []).1).flatten := by
      rw [hflat]
      simpa using hx
    obtain ⟨g, hg, hxg⟩ := List.mem_flatten.mp hxL
    refine ⟨g.reverse, ?_, by simpa using hxg⟩
    unfold seedGroupings
    exact List.mem_map.mpr ⟨g, hg, rfl⟩

theorem C10_witness :
    ((∀ j, j < ([3, -1, 0] : List ℤ).length → nbAt [3, -1, 0] j = -1 → 0 < j) ∧
      (∀ c ∈ seedGroupings [3, -1, 0], (0 : ℕ) ∉ c)) ∧
    (nbAt [-1, 0] 0 = -1 ∧
      ∀ x, x < ([-1, 0] : List ℤ).length → ∃ c ∈ seedGroupings [-1, 0], x ∈ c) :=
  ⟨⟨by decide, (C10_trailing_run_dropped [3, -1, 0]).1 0 (by decide)⟩,
   ⟨by decide, (C10_trailing_run_dropped [-1, 0]).2.2 (by decide)⟩⟩

theorem C8_witness :
    (0 : ℕ) < (create_obstruction_dist_map 2 1 [(0, [1])] 0).length ∧
    (1 : ℕ) < (create_obstruction_dist_map 2 1 [(0, [1])] 0).length ∧
    hasBlockers [(0, [1])] ((create_obstruction_dist_map 2 1 [(0, [1])] 0).getD 0 0) = false ∧
    hasBlockers [(0, [1])] ((create_obstruction_dist_map 2 1 [(0, [1])] 0).getD 1 0) = true ∧
    (0 : ℕ) < 1 :=
  ⟨by decide, by decide, by decide, by decide,
    C8_unblocked_before_blocked 2 1 [(0, [1])] 0 0 1 (by decide) (by decide)
      (by decide) (by decide)⟩

/-- Helper: the initial-guess stage only reports `INITIALIZE_SUCCESSFUL` or
`INITIALIZE_FAILED`. -/
theorem initial_guess_stage_status (cfg : Config) (orc : Objective_Behavior)
    (f : Fields) (st : Status_Flag) (g0 : ℚ) (d : Deformation)
    (h : initial_guess_stage cfg orc f = .ok (st, g0, d)) :
    st = .INITIALIZE_SUCCESSFUL ∨ st = .INITIALIZE_FAILED := by
  unfold initial_guess_stage at h
  split at h
  · rcases hsplit : (if f.sigma = -1 ∨ cfg.image_frame = 0 then orc.path_init_global
        else orc.path_init_local f.u f.v f.theta) with e | v
    · rw [hsplit] at h; dsimp only [Except.map] at h; cases h
    · rw [hsplit] at h; dsimp only [Except.map] at h; cases h; exact Or.inl rfl
  · split at h
    · rcases hp : orc.init_prev with e | v
      · rw [hp] at h; dsimp only [Except.map] at h; cases h
      · rw [hp] at h; dsimp only [Except.map] at h; cases h
        cases v.1 <;> simp [initFlag]
    · split at h
      · cases h; exact Or.inl rfl
      · rcases hp : orc.init_neighbor with e | v
        · rw [hp] at h; dsimp only [Except.map] at h; cases h
        · rw [hp] at h; dsimp only [Except.map] at h; cases h
          cases v.1 <;> simp [initFlag]

/-- Helper: the retry re-initialization only reports `INITIALIZE_SUCCESSFUL`
or `INITIALIZE_FAILED`. -/
theorem retry_init_stage_status (cfg : Config) (orc : Objective_Behavior)
    (f : Fields) (d : Deformation) (ri : Status_Flag × Deformation)
    (h : retry_init_stage cfg orc f d = .ok ri) :
    ri.1 = .INITIALIZE_SUCCESSFUL ∨ ri.1 = .INITIALIZE_FAILED := by
  unfold retry_init_stage at h
  split at h
  · rcases hp : orc.init_prev with e | v
    · rw [hp] at h; dsimp only [Except.map] at h; cases h
    · rw [hp] at h; dsimp only [Except.map] at h; cases h
      cases v.1 <;> simp [initFlag]
  · split at h
    · cases h; exact Or.inl rfl
    · rcases hp : orc.init_neighbor with e | v
      · rw [hp] at h; dsimp only [Except.map] at h; cases h
      · rw [hp] at h; dsimp only [Except.map] at h; cases h
        cases v.1 <;> simp [initFlag]

/-- Helper: `record_failed_step` always satisfies the first case of the
failed-field contract. -/
theorem record_failed_step_contract (cfg : Config) (orc : Objective_Behavior)
    (f : Fields) (st : Status_Flag) (its : ℤ) :
    failedFieldContract cfg orc f (record_failed_step f st its) :=
  Or.inl ⟨rfl, rfl, rfl, rfl, rfl, rfl, rfl, rfl, rfl⟩

/-- Helper: the field effect of the final gates and the commit, when the
outcome carries a failure status. -/
theorem finish_pass_contract (cfg : Config) (orc : Objective_Behavior)
    (f : Fields) (st : Status_Flag) (d : Deformation) (its : ℤ) (f' : Fields)
    (heq : finish_pass cfg orc f st d its = f')
    (hst : st = .INITIALIZE_SUCCESSFUL ∨ st = .INITIALIZE_FAILED)
    (hfail : isFailureStatus f'.statusFlag = true) :
    failedFieldContract cfg orc f f' := by
  unfold finish_pass at heq
  split at heq
  · split at heq
    next hphase =>
      subst heq
      exact Or.inr (Or.inl ⟨hphase, rfl, rfl, rfl, rfl, rfl, rfl, rfl, rfl,
        rfl, rfl⟩)
    next =>
      subst heq
      exact record_failed_step_contract cfg orc f _ its
  · split at heq
    · split at heq
      · subst heq
        exact record_failed_step_contract cfg orc f _ its
      · subst heq
        dsimp only [record_step] at hfail
        rcases hst with h1 | h1
        · rw [h1] at hfail
          exact absurd hfail (by decide)
        · subst h1
          exact Or.inr (Or.inr ⟨rfl, d, its, rfl⟩)
    · subst heq
      dsimp only [record_step] at hfail
      rcases hst with h1 | h1
      · rw [h1] at hfail
        exact absurd hfail (by decide)
      · subst h1
        exact Or.inr (Or.inr ⟨rfl, d, its, rfl⟩)

/-- Helper: the field effect of the correlation stage when it returns a
failure status. -/
theorem optimize_stage_contract (cfg : Config) (orc : Objective_Behavior)
    (f : Fields) (st : Status_Flag) (d : Deformation) (f' : Fields)
    (hrun : optimize_stage cfg orc f st d = .ok f')
    (hst : st = .INITIALIZE_SUCCESSFUL ∨ st = .INITIALIZE_FAILED)
    (hfail : isFailureStatus f'.statusFlag = true) :
    failedFieldContract cfg orc f f' := by
  unfold optimize_stage at hrun
  cases hopt : cfg.optimization_method <;> rw [hopt] at hrun <;> dsimp only at hrun
  case SIMPLEX =>
    split at hrun
    · exact finish_pass_contract cfg orc f st _ _ f' (Except.ok.inj hrun) hst hfail
    · cases hrun; exact record_failed_step_contract cfg orc f _ _
  case GRADIENT_BASED =>
    split at hrun
    · exact finish_pass_contract cfg orc f st _ _ f' (Except.ok.inj hrun) hst hfail
    · cases hrun; exact record_failed_step_contract cfg orc f _ _
  case GRADIENT_BASED_THEN_SIMPLEX =>
    split at hrun
    · exact finish_pass_contract cfg orc f st _ _ f' (Except.ok.inj hrun) hst hfail
    · rcases hr : retry_init_stage cfg orc f (attempt orc.update_fast d (-1)).2.1
        with e | ri
      · rw [hr] at hrun; dsimp only [Except.bind] at hrun; cases hrun
      · rw [hr] at hrun; dsimp only [Except.bind] at hrun
        split at hrun
        · exact finish_pass_contract cfg orc f ri.1 _ _ f' (Except.ok.inj hrun)
            (retry_init_stage_status cfg orc f _ ri hr) hfail
        · cases hrun; exact record_failed_step_contract cfg orc f _ _
  case SIMPLEX_THEN_GRADIENT_BASED =>
    split at hrun
    · exact finish_pass_contract cfg orc f st _ _ f' (Except.ok.inj hrun) hst hfail
    · rcases hr : retry_init_stage cfg orc f (attempt orc.update_robust d (-1)).2.1
        with e | ri
      · rw [hr] at hrun; dsimp only [Except.bind] at hrun; cases hrun
      · rw [hr] at hrun; dsimp only [Except.bind] at hrun
        split at hrun
        · exact finish_pass_contract cfg orc f ri.1 _ _ f' (Except.ok.inj hrun)
            (retry_init_stage_status cfg orc f _ ri hr) hfail
        · cases hrun; exact record_failed_step_contract cfg orc f _ _

/-- C3 (amended): a pass that ends carrying a failure status leaves the
displacement, rotation and strain fields at their previous values and resets
sigma, match and gamma to the sentinel `-1` while overwriting status and
iterations — except that (a) a final-gamma failure under phase-correlation
initialization first adds the phase offsets into the displacement fields, and
(b) a two-stage retry whose unchecked re-initialization reports failure but
whose second attempt converges commits all fields through `record_step` while
carrying the initialization-failure status. -/
theorem C3_failed_step_field_effect (cfg : Config) (orc : Objective_Behavior)
    (f f' : Fields)
    (hrun : generic_correlation_routine cfg orc f = .ok f')
    (hfail : isFailureStatus f'.statusFlag = true) :
    failedFieldContract cfg orc f f' := by
  unfold generic_correlation_routine at hrun
  split at hrun
  · cases hrun
    dsimp only at hfail
    exact absurd hfail (by decide)
  · rcases hig : initial_guess_stage cfg orc f with e | v
    · rw [hig] at hrun
      cases hrun
      exact record_failed_step_contract cfg orc f _ _
    · obtain ⟨st, g0, d⟩ := v
      rw [hig] at hrun
      dsimp only at hrun
      split at hrun
      · cases hrun
        exact record_failed_step_contract cfg orc f _ _
      · split at hrun
        · cases hrun
          dsimp only [record_step] at hfail
          exact absurd hfail (by decide)
        · split at hrun
          · cases hrun
            exact record_failed_step_contract cfg orc f _ _
          · exact optimize_stage_contract cfg orc f st d f' hrun
              (initial_guess_stage_status cfg orc f st g0 d hig) hfail

theorem C3_witness :
    generic_correlation_routine cfg_gate orc_gate fld0 =
      .ok (record_failed_step fld0 .INITIALIZE_FAILED (-1)) ∧
    isFailureStatus (record_failed_step fld0 .INITIALIZE_FAILED (-1)).statusFlag
      = true ∧
    failedFieldContract cfg_gate orc_gate fld0
      (record_failed_step fld0 .INITIALIZE_FAILED (-1)) :=
  ⟨by decide, by decide,
    C3_failed_step_field_effect cfg_gate orc_gate fld0
      (record_failed_step fld0 .INITIALIZE_FAILED (-1)) (by decide) (by decide)⟩

/-- C3 counterexample: the claim as stated says every failure status leaves
displacement unchanged, but a final-gamma failure under phase-correlation
initialization adds the phase offset into the displacement field (lines
1253-1256): with offset `5`, a previous displacement `0` becomes `5`. -/
theorem C3_counterexample :
    ¬ (∀ (cfg : Config) (orc : Objective_Behavior) (f f' : Fields),
        generic_correlation_routine cfg orc f = .ok f' →
        isFailureStatus f'.statusFlag = true →
        f'.u = f.u ∧ f'.v = f.v ∧ f'.theta = f.theta ∧ f'.exx = f.exx ∧
          f'.eyy = f.eyy ∧ f'.gxy = f.gxy ∧ f'.sigma = -1 ∧
          f'.matchField = -1 ∧ f'.gamma = -1) := by
  intro h
  obtain ⟨hu, -⟩ := h cfg_phase orc_phase fld0
    (record_failed_step
      { fld0 with u := fld0.u + cfg_phase.phase_cor_u_x,
                  v := fld0.v + cfg_phase.phase_cor_u_y }
      .FRAME_FAILED_DUE_TO_HIGH_GAMMA 7) rfl (by decide)
  norm_num [record_failed_step, fld0, cfg_phase] at hu

/-- C1: the dependency partitioner does not partition the ids — the claim
fails on a concrete input, by a defect of the scan itself.  On the depth-one
obstruction map `m_overlap` with `N = 5` points and `P = 2` processors, the
scan of lines 627-670 builds the overlapping groups `{0, 1, 3, 4}` and
`{0, 2}`: gathering the group seeded by entry `(1, [4])` absorbs `(3, [4, 0])`,
which inserts the new minimum id `0` and resets `dep_it` to `begin()`, but the
loop's `++dep_it` (line 645) immediately advances past it, so id `0` is never
scanned and entry `(2, [0])` stays unabsorbed, later seeding its own group
around `0`.  Round-robin distribution then places id `0` in both processors'
local lists, so the lists do not partition `{0..4}` — the very property the
code itself asserts at line 747 (`dist_map_->is_one_to_one()`). -/
theorem C1_failing_input :
    obstructionGroups m_overlap = [{0, 1, 3, 4}, {0, 2}] ∧
    create_obstruction_dist_map 5 2 m_overlap 0 = [0, 4, 1, 3] ∧
    create_obstruction_dist_map 5 2 m_overlap 1 = [0, 2] ∧
    0 ∈ create_obstruction_dist_map 5 2 m_overlap 0 ∧
    0 ∈ create_obstruction_dist_map 5 2 m_overlap 1 := by
  decide

end DICe
